import Mathlib

/-!
Shallow embedding of the Riichi-Mahjong-Transaction-Python scoring core.

The definitions below translate, as directly as Lean allows, the Python
modules `Points.py`, `RiichiRound.py`, `src/riichi_round_calc/riichi_types.py`,
`src/riichi_round_calc/helper.py` and `src/riichi_round_calc/round_end.py`.
Python lists of four signed integers become `List Int`; Python `None`-able
values become `Option`; Python code paths that raise an exception
(`ValueError` from unpacking an empty set, `IndexError` from indexing past a
list's end, attribute errors on `None`) are modelled by returning `none`.
Python `//` on non-negative integers is `Nat` division; on possibly negative
integers it is `Int.fdiv` (floor division); Python `%` on integers with a
positive modulus agrees with `Int.emod`.
-/

namespace Riichi

/-! ### riichi_types.py -/

def NUM_PLAYERS : Nat := 4

def STARTING_POINT : Int := 25000

def RETURNING_POINT : Int := 30000

def RIICHI_STICK_VALUE : Int := 1000

inductive Wind where
  | EAST
  | SOUTH
  | WEST
  | NORTH
deriving DecidableEq

def WIND_ORDER : List Wind := [Wind.EAST, Wind.SOUTH, Wind.WEST, Wind.NORTH]

/-- Models `WIND_ORDER.index(wind)`. -/
def wind_order_index (wind : Wind) : Nat :=
  match wind with
  | Wind.EAST => 0
  | Wind.SOUTH => 1
  | Wind.WEST => 2
  | Wind.NORTH => 3

inductive TransactionType where
  | DEAL_IN
  | SELF_DRAW
  | DEAL_IN_PAO
  | SELF_DRAW_PAO
  | NAGASHI_MANGAN
  | INROUND_RYUUKYOKU
deriving DecidableEq

-- [0] * NUM_PLAYERS
def get_empty_score_deltas : List Int := [0, 0, 0, 0]

-- [STARTING_POINT] * NUM_PLAYERS
def get_starting_score : List Int :=
  [STARTING_POINT, STARTING_POINT, STARTING_POINT, STARTING_POINT]

def get_next_wind (wind : Wind) : Wind :=
  WIND_ORDER.getD ((wind_order_index wind + 1) % NUM_PLAYERS) Wind.EAST

structure Hand where
  fu : Nat
  han : Nat
deriving DecidableEq

/-- The `Transaction` dataclass.  The top-level `RiichiRound.py` refers to the
last field both as `paoTarget` and (in `riichi_types.py`) as `pao_target`;
one structure field models both spellings. -/
structure Transaction where
  transaction_type : TransactionType
  score_deltas : List Int
  hand : Option Hand := none
  paoTarget : Option Nat := none
deriving DecidableEq

structure ConcludedRound where
  round_wind : Wind
  round_number : Nat
  honba : Nat
  start_riichi_stick_count : Nat
  end_riichi_stick_count : Nat
  riichis : List Nat
  tenpais : List Nat
  transactions : List Transaction
deriving DecidableEq

structure NewRound where
  round_wind : Wind
  round_number : Nat
  honba : Nat
  start_riichi_stick_count : Nat
deriving DecidableEq

/-! ### helper.py -/

/-- `containing_any`: first transaction of the given type, else `None`. -/
def containing_any (transactions : List Transaction)
    (transaction_type : TransactionType) : Option Transaction :=
  transactions.find? (fun t => t.transaction_type == transaction_type)

/-! ### Points.py -/

def MANGAN_BASE_POINT : Nat := 2000

/-- `mangan_value(points)`: the Python multiplier 1.5 times the base 2000 is
the exact integer 3000, written `MANGAN_BASE_POINT * 3 / 2` here. -/
def mangan_value (points : Nat) : Nat :=
  if points = 5 then MANGAN_BASE_POINT * 1
  else if points ≤ 7 then MANGAN_BASE_POINT * 3 / 2
  else if points ≤ 10 then MANGAN_BASE_POINT * 2
  else if points ≤ 12 then MANGAN_BASE_POINT * 3
  else if points = 13 then MANGAN_BASE_POINT * 4
  else if points = 26 then MANGAN_BASE_POINT * (4 * 2)
  else if points = 39 then MANGAN_BASE_POINT * (4 * 3)
  else if points = 52 then MANGAN_BASE_POINT * (4 * 4)
  else if points = 65 then MANGAN_BASE_POINT * (4 * 5)
  else MANGAN_BASE_POINT * 0

/-- `calculate_hand_value(multiplier, hand)`.  The Python expression is
`math.ceil((fu * 2 ** (2 + han) * multiplier) // 100) * 100`: the inner `//`
is integer floor division, so `math.ceil` is applied to an integer and is the
identity; the whole expression floor-divides by 100 and multiplies back. -/
def calculate_hand_value (multiplier : Nat) (hand : Hand) : Nat :=
  if hand.han ≥ 5 then mangan_value hand.han * multiplier
  else
    let mangan_payout := MANGAN_BASE_POINT * multiplier
    let hand_value := hand.fu * 2 ^ (2 + hand.han) * multiplier / 100 * 100
    if hand_value > mangan_payout then mangan_payout else hand_value

/-! ### RiichiRound.py: transaction builders -/

def get_deal_in_multiplier (person_index dealer_index : Nat) : Nat :=
  if person_index = dealer_index then 6 else 4

def get_self_draw_multiplier (person_index dealer_index : Nat)
    (is_dealer : Bool) : Nat :=
  if is_dealer ∨ person_index = dealer_index then 2 else 1

def get_deal_in_transaction (winner_index loser_index dealer_index : Nat)
    (hand : Hand) : Transaction :=
  let multiplier := get_deal_in_multiplier winner_index dealer_index
  let hand_value : Int := calculate_hand_value multiplier hand
  let score_deltas := get_empty_score_deltas
  -- score_deltas[winner_index] -= hand_value
  let score_deltas :=
    score_deltas.set winner_index (score_deltas.getD winner_index 0 - hand_value)
  -- score_deltas[loser_index] += hand_value
  let score_deltas :=
    score_deltas.set loser_index (score_deltas.getD loser_index 0 + hand_value)
  { transaction_type := TransactionType.DEAL_IN
    score_deltas := score_deltas
    hand := some hand }

def get_self_draw_transaction (winner_index dealer_index : Nat)
    (hand : Hand) : Transaction :=
  let is_dealer : Bool := winner_index == dealer_index
  let step : Int × List Int → Nat → Int × List Int := fun acc i =>
    if i ≠ winner_index then
      let value : Int :=
        calculate_hand_value (get_self_draw_multiplier i dealer_index is_dealer) hand
      (acc.1 + value, acc.2.set i (-value))
    else acc
  let result := (List.range NUM_PLAYERS).foldl step (0, get_empty_score_deltas)
  { transaction_type := TransactionType.SELF_DRAW
    score_deltas := result.2.set winner_index result.1
    hand := some hand }

def get_in_round_ryuukyoku_transaction : Transaction :=
  { transaction_type := TransactionType.INROUND_RYUUKYOKU
    score_deltas := get_empty_score_deltas }

def get_nagashi_mangan_transaction (winner_index dealer_index : Nat) :
    Transaction :=
  let is_dealer : Bool := winner_index == dealer_index
  let step : List Int → Nat → List Int := fun ds i =>
    if i ≠ winner_index then
      let value : Int :=
        MANGAN_BASE_POINT * get_self_draw_multiplier i dealer_index is_dealer
      let ds := ds.set i (-value)
      ds.set winner_index (ds.getD winner_index 0 + value)
    else ds
  { transaction_type := TransactionType.NAGASHI_MANGAN
    score_deltas := (List.range NUM_PLAYERS).foldl step get_empty_score_deltas }

def get_deal_in_pao_transaction
    (winner_index deal_in_person_index pao_player_index dealer_index : Nat)
    (hand : Hand) : Transaction :=
  let multiplier := get_deal_in_multiplier winner_index dealer_index
  let score_deltas := get_empty_score_deltas
  let score_deltas :=
    score_deltas.set deal_in_person_index
      (-(calculate_hand_value (multiplier / 2) hand : Int))
  let score_deltas :=
    score_deltas.set pao_player_index
      (-(calculate_hand_value (multiplier / 2) hand : Int))
  let score_deltas :=
    score_deltas.set winner_index (calculate_hand_value multiplier hand : Int)
  { transaction_type := TransactionType.DEAL_IN_PAO
    score_deltas := score_deltas
    hand := some hand
    paoTarget := some pao_player_index }

def get_self_draw_pao_transaction
    (winner_index pao_player_index dealer_index : Nat) (hand : Hand) :
    Transaction :=
  let multiplier := get_deal_in_multiplier winner_index dealer_index
  let value : Int := calculate_hand_value multiplier hand
  let score_deltas := get_empty_score_deltas
  let score_deltas := score_deltas.set pao_player_index (-value)
  let score_deltas := score_deltas.set winner_index value
  { transaction_type := TransactionType.SELF_DRAW_PAO
    score_deltas := score_deltas
    hand := some hand
    paoTarget := some pao_player_index }

/-! ### RiichiRound.py: head-bump resolution and score aggregation -/

/-- The set `winners` built by `find_head_bump_winner`.  A CPython set of
seat indices drawn from `range(4)` iterates in increasing order (small
non-negative ints hash to themselves), so the set is modelled as the
increasing list of its members. -/
def head_bump_winners (transactions : List Transaction) : List Nat :=
  (List.range NUM_PLAYERS).filter (fun i =>
    transactions.any (fun t =>
      !(t.paoTarget == some i) && decide (0 < t.score_deltas.getD i 0)))

/-- The set `losers` built by `find_head_bump_winner` (same modelling as
`head_bump_winners`).  The Python `elif` branch adds `i` only when the delta
is not positive and is negative, which is just "negative". -/
def head_bump_losers (transactions : List Transaction) : List Nat :=
  (List.range NUM_PLAYERS).filter (fun i =>
    transactions.any (fun t =>
      !(t.paoTarget == some i) && decide (t.score_deltas.getD i 0 < 0)))

/-- `get_closest_winner(loser_local_pos, winners)`.  `[closest_winner, *_] =
winners` raises `ValueError` on an empty set, modelled by `none`.  Python's
`(winner - loser) % 4` on possibly negative ints is `Int.emod`. -/
def get_closest_winner (loser_local_pos : Nat) (winners : List Nat) :
    Option Nat :=
  match winners with
  | [] => none
  | closest :: _ =>
    some (winners.foldl
      (fun closest_winner winner =>
        if (Int.ofNat winner - Int.ofNat loser_local_pos) % (NUM_PLAYERS : Int) <
            (Int.ofNat closest_winner - Int.ofNat loser_local_pos) %
              (NUM_PLAYERS : Int)
        then winner else closest_winner)
      closest)

/-- `find_head_bump_winner`: `[loser, *_] = losers` raises `ValueError` on an
empty set, modelled by `none`. -/
def find_head_bump_winner (transactions : List Transaction) : Option Nat :=
  match head_bump_losers transactions with
  | [] => none
  | loser :: _ => get_closest_winner loser (head_bump_winners transactions)

/-- `generate_tenpai_score_deltas(tenpais)`.  Python `//` is floor division,
`Int.fdiv` here (the dividends `3000` and `-3000` can be negative). -/
def generate_tenpai_score_deltas (tenpais : List Nat) : List Int :=
  if tenpais = [] ∨ tenpais.length = NUM_PLAYERS then get_empty_score_deltas
  else
    (List.range NUM_PLAYERS).map (fun i =>
      if i ∈ tenpais then Int.fdiv 3000 tenpais.length
      else Int.fdiv (-3000) tenpais.length)

def reduce_score_deltas (transactions : List Transaction) : List Int :=
  transactions.foldl
    (fun result t =>
      (List.range NUM_PLAYERS).foldl
        (fun r i => r.set i (r.getD i 0 + t.score_deltas.getD i 0)) result)
    get_empty_score_deltas

/-- `generate_overall_score_deltas(concluded_round)`.  The unconditional call
to `find_head_bump_winner` can raise `ValueError` (empty `losers` set), so
the result is an `Option`. -/
def generate_overall_score_deltas (concluded_round : ConcludedRound) :
    Option (List Int) :=
  let raw_score_deltas := reduce_score_deltas concluded_round.transactions
  let raw_score_deltas :=
    concluded_round.riichis.foldl
      (fun r riichi_player => r.set riichi_player (r.getD riichi_player 0 - 1000))
      raw_score_deltas
  if (containing_any concluded_round.transactions
      TransactionType.NAGASHI_MANGAN).isSome then
    some raw_score_deltas
  else
    let riichi_deltas :=
      List.zipWith (fun a b => a + b)
        (generate_tenpai_score_deltas concluded_round.tenpais) raw_score_deltas
    match find_head_bump_winner concluded_round.transactions with
    | none => none
    | some headbump_winner =>
      if concluded_round.end_riichi_stick_count = 0 then
        some (riichi_deltas.set headbump_winner
          (riichi_deltas.getD headbump_winner 0 +
            ((concluded_round.start_riichi_stick_count : Int) +
              concluded_round.riichis.length) * RIICHI_STICK_VALUE))
      else some riichi_deltas

/-! ### RiichiRound.py: honba transform -/

/-- `handle_deal_in(transaction, honba)` (returns the mutated transaction). -/
def handle_deal_in (transaction : Transaction) (honba : Nat) : Transaction :=
  { transaction with
    score_deltas :=
      (List.range NUM_PLAYERS).foldl
        (fun ds i =>
          if transaction.paoTarget == some i then ds
          else if 0 < ds.getD i 0 then ds.set i (ds.getD i 0 + 300 * honba)
          else if ds.getD i 0 < 0 then ds.set i (-(300 * honba : Int))
          else ds)
        transaction.score_deltas }

/-- `add_honba(transaction, honba)`.  The Python `match` arms
`case TransactionType.NAGASHI_MANGAN, TransactionType.INROUND_RYUUKYOKU:` and
`case TransactionType.DEAL_IN, TransactionType.DEAL_IN_PAO:` are sequence
(tuple) patterns; a `TransactionType` subject is not a sequence, so those two
arms can never match and only the `SELF_DRAW` and `SELF_DRAW_PAO` value
patterns ever execute.  All other kinds (including `DEAL_IN` and
`DEAL_IN_PAO`) fall through the `match` with the copied transaction
unchanged. -/
def add_honba (transaction : Transaction) (honba : Nat) : Transaction :=
  match transaction.transaction_type with
  | TransactionType.SELF_DRAW =>
    { transaction with
      score_deltas :=
        (List.range NUM_PLAYERS).foldl
          (fun ds i =>
            if 0 < ds.getD i 0 then ds.set i (ds.getD i 0 + 300 * honba)
            else ds.set i (-(100 * honba : Int)))
          transaction.score_deltas }
  | TransactionType.SELF_DRAW_PAO =>
    { transaction with
      score_deltas :=
        (List.range NUM_PLAYERS).foldl
          (fun ds i =>
            if 0 < ds.getD i 0 then ds.set i (ds.getD i 0 + 300 * honba)
            else if ds.getD i 0 < 0 then ds.set i (-(300 * honba : Int))
            else ds)
          transaction.score_deltas }
  | _ => transaction

/-- `determine_honba_transaction(transactions)`.  Python returns `None` when
the final loop finds no transaction crediting the head-bump winner; a raised
`ValueError` from `find_head_bump_winner` is also modelled by `none`. -/
def determine_honba_transaction (transactions : List Transaction) :
    Option Transaction :=
  if transactions.length = 1 then transactions.head?
  else
    match containing_any transactions TransactionType.SELF_DRAW with
    | some potential_tsumo => some potential_tsumo
    | none =>
      match find_head_bump_winner transactions with
      | none => none
      | some headbump_winner =>
        match transactions.find? (fun t =>
            decide (0 < t.score_deltas.getD headbump_winner 0) &&
            t.transaction_type == TransactionType.DEAL_IN_PAO) with
        | some t => some t
        | none =>
          transactions.find? (fun t =>
            decide (0 < t.score_deltas.getD headbump_winner 0))

/-- `transform_transactions(transactions, honba)`.  The replacement loop runs
`i` over `range(NUM_PLAYERS)` and indexes `transactions[i]`: with fewer than
four transactions and no structural match the Python code raises
`IndexError`, modelled as `none`; `determine_honba_transaction` returning
`None` makes `add_honba` raise an attribute error, also `none`. -/
def transform_transactions (transactions : List Transaction) (honba : Nat) :
    Option (List Transaction) :=
  if transactions = [] then some []
  else
    match determine_honba_transaction transactions with
    | none => none
    | some transaction =>
      let new_transaction := add_honba transaction honba
      match (transactions.take NUM_PLAYERS).findIdx? (fun t => t == transaction) with
      | some i => some (transactions.set i new_transaction)
      | none =>
        if transactions.length < NUM_PLAYERS then none else some transactions

/-! ### RiichiRound.py: the RiichiRound accumulator -/

/-- The mutable state of a `RiichiRound` object just before `concludeRound`
(the `dealer_index` attribute is always `round_number - 1`). -/
structure RiichiRoundState where
  round_wind : Wind
  round_number : Nat
  honba : Nat
  start_riichi_stick_count : Nat
  riichis : List Nat
  tenpais : List Nat
  transactions : List Transaction
deriving DecidableEq

def RiichiRoundState.dealer_index (r : RiichiRoundState) : Nat :=
  r.round_number - 1

/-- `RiichiRound.get_final_riichi_sticks` (the source spells the attribute
`transaction.transactionType`; the field is the transaction's type). -/
def get_final_riichi_sticks (r : RiichiRoundState) : Nat :=
  if r.transactions.any (fun t =>
      [TransactionType.DEAL_IN, TransactionType.SELF_DRAW,
        TransactionType.SELF_DRAW_PAO, TransactionType.DEAL_IN_PAO].contains
        t.transaction_type) then 0
  else r.start_riichi_stick_count + r.riichis.length

/-- `RiichiRound.concludeRound` (an exception from `transform_transactions`
propagates, hence `Option`). -/
def concludeRound (r : RiichiRoundState) : Option ConcludedRound :=
  match transform_transactions r.transactions r.honba with
  | none => none
  | some transactions =>
    some
      { round_number := r.round_number
        round_wind := r.round_wind
        honba := r.honba
        start_riichi_stick_count := r.start_riichi_stick_count
        riichis := r.riichis
        tenpais := r.tenpais
        end_riichi_stick_count := get_final_riichi_sticks r
        transactions := transactions }

/-! ### round_end.py -/

/-- `get_new_honba_count`: the per-transaction early returns both yield
`honba + 1`, so the loop is an existence check. -/
def get_new_honba_count (transactions : List Transaction)
    (dealer_index : Nat) (honba : Nat) : Nat :=
  if transactions.length = 0 then honba + 1
  else if transactions.any (fun t =>
      [TransactionType.INROUND_RYUUKYOKU, TransactionType.NAGASHI_MANGAN].contains
        t.transaction_type ||
      decide (0 < t.score_deltas.getD dealer_index 0)) then honba + 1
  else 0

/-- `dealership_retains`: the early returns make the loop an existence
check over the two disjuncts. -/
def dealership_retains (transactions : List Transaction) (tenpais : List Nat)
    (dealer_index : Nat) : Bool :=
  transactions.any (fun t =>
    (!(t.transaction_type == TransactionType.NAGASHI_MANGAN) &&
      decide (0 < t.score_deltas.getD dealer_index 0)) ||
    t.transaction_type == TransactionType.INROUND_RYUUKYOKU) ||
  tenpais.contains dealer_index

def generate_next_round (concluded_round : ConcludedRound) : NewRound :=
  let new_honba_count :=
    get_new_honba_count concluded_round.transactions
      (concluded_round.round_number - 1) concluded_round.honba
  if dealership_retains concluded_round.transactions concluded_round.tenpais
      (concluded_round.round_number - 1) then
    { honba := new_honba_count
      round_number := concluded_round.round_number
      round_wind := concluded_round.round_wind
      start_riichi_stick_count := concluded_round.end_riichi_stick_count }
  else
    { honba := new_honba_count
      round_number :=
        if concluded_round.round_number = NUM_PLAYERS then 1
        else concluded_round.round_number + 1
      round_wind :=
        if concluded_round.round_number = NUM_PLAYERS then
          get_next_wind concluded_round.round_wind
        else concluded_round.round_wind
      start_riichi_stick_count := concluded_round.end_riichi_stick_count }

/-- The score-replay loop of `is_game_end`: fold the aggregate deltas of each
concluded round onto the starting score (`total_score[i] += deltas[i]`). -/
def replay_totals (concluded_rounds : List ConcludedRound) :
    Option (List Int) :=
  concluded_rounds.foldlM
    (fun total_score concluded_round =>
      (generate_overall_score_deltas concluded_round).map
        (fun deltas => List.zipWith (fun a b => a + b) total_score deltas))
    get_starting_score

/-- `is_game_end(new_round, concluded_rounds)` with the default
`starting_score=None` (so `get_starting_score()`).  The negative-score /
returning-point loop exits early with `True` at the first negative seat and
otherwise records whether any seat reached `RETURNING_POINT`, which is the
same as the two `any` tests below.  `concluded_rounds[-1]` on an empty
history would raise, modelled by `none` (unreachable with the default
starting score, which stops earlier with `False`). -/
def is_game_end (new_round : NewRound)
    (concluded_rounds : List ConcludedRound) : Option Bool :=
  if new_round.round_wind = Wind.NORTH then some true
  else
    match replay_totals concluded_rounds with
    | none => none
    | some total_score =>
      if total_score.any (fun score => decide (score < 0)) then some true
      else if !(total_score.any (fun score => decide (RETURNING_POINT ≤ score)))
        then some false
      else if new_round.round_wind = Wind.WEST then some true
      else
        match concluded_rounds.getLast? with
        | none => none
        | some last_round =>
          if last_round.round_wind ≠ Wind.SOUTH ∨
              last_round.round_number ≠ NUM_PLAYERS then some false
          else
            some ((List.range (total_score.length - 1)).all (fun i =>
              decide (total_score.getD i 0 <
                total_score.getD (total_score.length - 1) 0)))

/-! ### Claim theorems -/

/-- C1: the claim says that in `get_deal_in_transaction` the loser's delta is
`-hand_value` and the winner's is `+hand_value`; in particular for winner =
dealer = seat 0, loser = seat 2, hand (fu=40, han=2) seat 2's delta is
negative and seat 0's positive.  The code does the opposite: it subtracts the
hand value from the winner and adds it to the loser, so at that very input
seat 0 ends at (-3800) and seat 2 at (+3800). -/
theorem c1_deal_in_signs_reversed :
    (get_deal_in_transaction 0 2 0 ⟨40, 2⟩).score_deltas = [-3800, 0, 3800, 0] := by
  decide

/-- C2: the claim says the non-mangan hand value is rounded UP to the next
multiple of 100, so fu=30, han=3, multiplier=2 should give 2000 (1920 rounded
up).  The code floor-divides by 100 before the (then vacuous) `math.ceil`,
so it rounds DOWN and yields 1900 at that input. -/
theorem c2_hand_value_rounds_down :
    calculate_hand_value 2 ⟨30, 3⟩ = 1900 := by
  decide

-- A single DEAL_IN transaction as the claim C3 describes (winner seat 0
-- +4000, loser seat 2 -4000), to be sealed with honba 2.
def c3_deal_in_tx : Transaction :=
  { transaction_type := TransactionType.DEAL_IN
    score_deltas := [4000, 0, -4000, 0]
    hand := some ⟨30, 3⟩ }

/-- C3: the claim says sealing a round whose single transaction is a DEAL_IN
with honba = 2 increases the winner's delta by 600 and overwrites the loser's
to -600.  In the code the `match` arm for DEAL_IN / DEAL_IN_PAO is an
unmatchable sequence pattern, so `add_honba` (and hence the seal's
`transform_transactions`) returns the transaction unchanged, while the dead
helper `handle_deal_in` would have produced the claimed deltas. -/
theorem c3_honba_skips_deal_in :
    add_honba c3_deal_in_tx 2 = c3_deal_in_tx ∧
    transform_transactions [c3_deal_in_tx] 2 = some [c3_deal_in_tx] ∧
    (handle_deal_in c3_deal_in_tx 2).score_deltas = [4600, 0, -600, 0] := by
  refine ⟨by decide, by decide, by decide⟩

-- A concluded round whose only transaction is the exhaustive draw, with one
-- riichi declared and one tenpai seat (claim C4's scenario).
def c4_draw_round : ConcludedRound :=
  { round_wind := Wind.EAST
    round_number := 1
    honba := 0
    start_riichi_stick_count := 0
    end_riichi_stick_count := 1
    riichis := [1]
    tenpais := [1]
    transactions := [get_in_round_ryuukyoku_transaction] }

/-- C4: the claim says `generate_overall_score_deltas` completes and returns
a 4-vector for every concluded round, including one whose only transaction
is INROUND_RYUUKYOKU.  On such a round both the winner and the loser sets of
`find_head_bump_winner` are empty, `[loser, *_] = losers` raises
`ValueError`, and the aggregate computation never returns (modelled as
`none`). -/
theorem c4_overall_deltas_raise_on_draw :
    generate_overall_score_deltas c4_draw_round = none := by
  decide

/-- C5 counterexample: the claim says every builder's transaction is
zero-sum, "in particular deal_in_pao".  For a dealer winner (multiplier 6)
with hand fu=55, han=0, the two halved payments round independently of the
full payment: the winner receives 1300 while the loser and the responsibility
target each pay 600, so the deltas sum to +100, not 0. -/
theorem c5_deal_in_pao_not_zero_sum :
    (get_deal_in_pao_transaction 0 1 2 0 ⟨55, 0⟩).score_deltas.sum ≠ 0 := by
  decide

/-- The four winning transaction kinds checked by
`get_final_riichi_sticks`, as a propositional disjunction. -/
lemma contains_win_types_iff (x : TransactionType) :
    ([TransactionType.DEAL_IN, TransactionType.SELF_DRAW,
      TransactionType.SELF_DRAW_PAO, TransactionType.DEAL_IN_PAO].contains x
      = true) ↔
    (x = TransactionType.DEAL_IN ∨ x = TransactionType.SELF_DRAW ∨
      x = TransactionType.DEAL_IN_PAO ∨ x = TransactionType.SELF_DRAW_PAO) := by
  cases x <;> decide

/-- C6: for every sealed round, `end_riichi_stick_count` is 0 if the round's
transactions contain any of the four winning kinds, and otherwise equals
`start_riichi_stick_count` plus the number of riichi declarations. -/
theorem c6_end_riichi_sticks (r : RiichiRoundState) (cr : ConcludedRound)
    (h : concludeRound r = some cr) :
    cr.end_riichi_stick_count =
      if ∃ t ∈ r.transactions,
          t.transaction_type = TransactionType.DEAL_IN ∨
          t.transaction_type = TransactionType.SELF_DRAW ∨
          t.transaction_type = TransactionType.DEAL_IN_PAO ∨
          t.transaction_type = TransactionType.SELF_DRAW_PAO
      then 0 else r.start_riichi_stick_count + r.riichis.length := by
  have hend : cr.end_riichi_stick_count = get_final_riichi_sticks r := by
    unfold concludeRound at h
    cases htr : transform_transactions r.transactions r.honba with
    | none => rw [htr] at h; exact absurd h (by simp)
    | some ts =>
      rw [htr] at h
      cases h
      rfl
  rw [hend]
  unfold get_final_riichi_sticks
  have hiff :
      (r.transactions.any (fun t =>
        [TransactionType.DEAL_IN, TransactionType.SELF_DRAW,
          TransactionType.SELF_DRAW_PAO, TransactionType.DEAL_IN_PAO].contains
          t.transaction_type) = true) ↔
      (∃ t ∈ r.transactions,
        t.transaction_type = TransactionType.DEAL_IN ∨
        t.transaction_type = TransactionType.SELF_DRAW ∨
        t.transaction_type = TransactionType.DEAL_IN_PAO ∨
        t.transaction_type = TransactionType.SELF_DRAW_PAO) := by
    rw [List.any_eq_true]
    constructor
    · rintro ⟨t, ht, hc⟩
      exact ⟨t, ht, (contains_win_types_iff _).mp hc⟩
    · rintro ⟨t, ht, hc⟩
      exact ⟨t, ht, (contains_win_types_iff _).mpr hc⟩
  rw [if_congr hiff rfl rfl]

-- The round of claim C6's example: start = 2 sticks, two riichi declared,
-- ending in the exhaustive draw, so the sealed count is 4.
def c6_round : RiichiRoundState :=
  { round_wind := Wind.EAST
    round_number := 1
    honba := 0
    start_riichi_stick_count := 2
    riichis := [1, 3]
    tenpais := []
    transactions := [get_in_round_ryuukyoku_transaction] }

def c6_concluded : ConcludedRound :=
  { round_wind := Wind.EAST
    round_number := 1
    honba := 0
    start_riichi_stick_count := 2
    end_riichi_stick_count := 4
    riichis := [1, 3]
    tenpais := []
    transactions := [get_in_round_ryuukyoku_transaction] }

/-- C6 witness: the example round (start = 2, two riichi, ends in
INROUND_RYUUKYOKU) seals with end count 4. -/
theorem c6_end_riichi_sticks_witness :
    concludeRound c6_round = some c6_concluded ∧
    c6_concluded.end_riichi_stick_count =
      if ∃ t ∈ c6_round.transactions,
          t.transaction_type = TransactionType.DEAL_IN ∨
          t.transaction_type = TransactionType.SELF_DRAW ∨
          t.transaction_type = TransactionType.DEAL_IN_PAO ∨
          t.transaction_type = TransactionType.SELF_DRAW_PAO
      then 0 else c6_round.start_riichi_stick_count + c6_round.riichis.length :=
  ⟨by decide, c6_end_riichi_sticks c6_round c6_concluded (by decide)⟩

/-- C9: every han between 5 and 65 that is outside the enumerated mangan
steps has `mangan_value` 0, and hence `calculate_hand_value` 0 for every
multiplier and fu. -/
theorem c9_mangan_gap (han : Nat) (h5 : 5 ≤ han) (h65 : han ≤ 65)
    (hout : han ∉ [5, 6, 7, 8, 9, 10, 11, 12, 13, 26, 39, 52, 65]) :
    mangan_value han = 0 ∧
      ∀ multiplier fu, calculate_hand_value multiplier ⟨fu, han⟩ = 0 := by
  have hm : mangan_value han = 0 := by
    interval_cases han <;> first | exact absurd (by decide) hout | decide
  refine ⟨hm, fun multiplier fu => ?_⟩
  unfold calculate_hand_value
  rw [if_pos (show Hand.han ⟨fu, han⟩ ≥ 5 from h5), hm, Nat.zero_mul]

/-- C9 witness: han = 14 is in the gap and produces a zero-point hand. -/
theorem c9_mangan_gap_witness :
    5 ≤ 14 ∧ 14 ≤ 65 ∧
    (14 : Nat) ∉ [5, 6, 7, 8, 9, 10, 11, 12, 13, 26, 39, 52, 65] ∧
    mangan_value 14 = 0 ∧ calculate_hand_value 7 ⟨30, 14⟩ = 0 :=
  ⟨by decide, by decide, by decide,
    (c9_mangan_gap 14 (by decide) (by decide) (by decide)).1,
    (c9_mangan_gap 14 (by decide) (by decide) (by decide)).2 7 30⟩


/-- C7: `generate_next_round` keeps round_number and round_wind exactly when
the dealer seat (round_number - 1) has a positive delta in some
non-NAGASHI_MANGAN transaction, or some transaction is INROUND_RYUUKYOKU, or
the dealer seat is tenpai; otherwise round_number advances cyclically
1-2-3-4-1 and the wind advances exactly when round_number wraps from 4 to 1;
in both cases the new start_riichi_stick_count is the concluded round's
end_riichi_stick_count. -/
theorem c7_next_round (cr : ConcludedRound)
    (h1 : 1 ≤ cr.round_number) (h4 : cr.round_number ≤ 4) :
    (generate_next_round cr).start_riichi_stick_count =
      cr.end_riichi_stick_count ∧
    (((∃ t ∈ cr.transactions,
        t.transaction_type ≠ TransactionType.NAGASHI_MANGAN ∧
        0 < t.score_deltas.getD (cr.round_number - 1) 0) ∨
      (∃ t ∈ cr.transactions,
        t.transaction_type = TransactionType.INROUND_RYUUKYOKU) ∨
      (cr.round_number - 1) ∈ cr.tenpais) →
      ((generate_next_round cr).round_number = cr.round_number ∧
       (generate_next_round cr).round_wind = cr.round_wind)) ∧
    (¬ ((∃ t ∈ cr.transactions,
        t.transaction_type ≠ TransactionType.NAGASHI_MANGAN ∧
        0 < t.score_deltas.getD (cr.round_number - 1) 0) ∨
      (∃ t ∈ cr.transactions,
        t.transaction_type = TransactionType.INROUND_RYUUKYOKU) ∨
      (cr.round_number - 1) ∈ cr.tenpais) →
      ((generate_next_round cr).round_number =
        (if cr.round_number = 4 then 1 else cr.round_number + 1) ∧
       (generate_next_round cr).round_wind =
        (if cr.round_number = 4 then get_next_wind cr.round_wind
         else cr.round_wind))) := by
  have key :
      (dealership_retains cr.transactions cr.tenpais (cr.round_number - 1)
        = true) ↔
      ((∃ t ∈ cr.transactions,
        t.transaction_type ≠ TransactionType.NAGASHI_MANGAN ∧
        0 < t.score_deltas.getD (cr.round_number - 1) 0) ∨
      (∃ t ∈ cr.transactions,
        t.transaction_type = TransactionType.INROUND_RYUUKYOKU) ∨
      (cr.round_number - 1) ∈ cr.tenpais) := by
    simp only [dealership_retains, Bool.or_eq_true, List.any_eq_true,
      Bool.and_eq_true, Bool.not_eq_true', decide_eq_true_eq, beq_iff_eq,
      beq_eq_false_iff_ne, List.contains_iff_exists_mem_beq]
    constructor
    · rintro (⟨t, ht, hcond⟩ | hten)
      · rcases hcond with ⟨hne, hpos⟩ | hIR
        · exact Or.inl ⟨t, ht, hne, hpos⟩
        · exact Or.inr (Or.inl ⟨t, ht, hIR⟩)
      · rcases hten with ⟨a, ha, haeq⟩
        exact Or.inr (Or.inr (haeq ▸ ha))
    · rintro (⟨t, ht, hne, hpos⟩ | ⟨t, ht, hIR⟩ | hten)
      · exact Or.inl ⟨t, ht, Or.inl ⟨hne, hpos⟩⟩
      · exact Or.inl ⟨t, ht, Or.inr hIR⟩
      · exact Or.inr ⟨_, hten, rfl⟩
  by_cases hr : ((∃ t ∈ cr.transactions,
        t.transaction_type ≠ TransactionType.NAGASHI_MANGAN ∧
        0 < t.score_deltas.getD (cr.round_number - 1) 0) ∨
      (∃ t ∈ cr.transactions,
        t.transaction_type = TransactionType.INROUND_RYUUKYOKU) ∨
      (cr.round_number - 1) ∈ cr.tenpais)
  · have hb := key.mpr hr
    refine ⟨?_, fun _ => ⟨?_, ?_⟩, fun hn => absurd hr hn⟩ <;>
      simp [generate_next_round, hb]
  · have hb : dealership_retains cr.transactions cr.tenpais
        (cr.round_number - 1) = false := by
      rcases Bool.eq_false_or_eq_true
        (dealership_retains cr.transactions cr.tenpais (cr.round_number - 1))
        with h | h
      · exact absurd (key.mp h) hr
      · exact h
    refine ⟨?_, fun hp => absurd hp hr, fun _ => ⟨?_, ?_⟩⟩ <;>
      simp [generate_next_round, hb, NUM_PLAYERS]


-- The spec's round-progression example: dealer seat 0 loses by deal-in at
-- East 1, so dealership passes: round_number becomes 2, wind stays EAST.
def c7_round : ConcludedRound :=
  { round_wind := Wind.EAST
    round_number := 1
    honba := 0
    start_riichi_stick_count := 0
    end_riichi_stick_count := 0
    riichis := []
    tenpais := []
    transactions := [{ transaction_type := TransactionType.DEAL_IN
                       score_deltas := [-3900, 3900, 0, 0]
                       hand := some ⟨30, 3⟩ }] }

/-- C7 witness: at `c7_round` the dealer retains nothing, so the next round
is East 2 with the sticks carried over. -/
theorem c7_next_round_witness :
    1 ≤ c7_round.round_number ∧ c7_round.round_number ≤ 4 ∧
    ((generate_next_round c7_round).start_riichi_stick_count =
      c7_round.end_riichi_stick_count ∧
    (((∃ t ∈ c7_round.transactions,
        t.transaction_type ≠ TransactionType.NAGASHI_MANGAN ∧
        0 < t.score_deltas.getD (c7_round.round_number - 1) 0) ∨
      (∃ t ∈ c7_round.transactions,
        t.transaction_type = TransactionType.INROUND_RYUUKYOKU) ∨
      (c7_round.round_number - 1) ∈ c7_round.tenpais) →
      ((generate_next_round c7_round).round_number = c7_round.round_number ∧
       (generate_next_round c7_round).round_wind = c7_round.round_wind)) ∧
    (¬ ((∃ t ∈ c7_round.transactions,
        t.transaction_type ≠ TransactionType.NAGASHI_MANGAN ∧
        0 < t.score_deltas.getD (c7_round.round_number - 1) 0) ∨
      (∃ t ∈ c7_round.transactions,
        t.transaction_type = TransactionType.INROUND_RYUUKYOKU) ∨
      (c7_round.round_number - 1) ∈ c7_round.tenpais) →
      ((generate_next_round c7_round).round_number =
        (if c7_round.round_number = 4 then 1 else c7_round.round_number + 1) ∧
       (generate_next_round c7_round).round_wind =
        (if c7_round.round_number = 4 then get_next_wind c7_round.round_wind
         else c7_round.round_wind)))) :=
  ⟨by decide, by decide, c7_next_round c7_round (by decide) (by decide)⟩

/-- C8: when the replay from 25000 leaves no seat negative, some seat is at
or above 30000, the upcoming wind is neither NORTH nor WEST and the last
concluded round was South 4, `is_game_end` returns true iff each of seats
0, 1, 2 has a running total strictly below seat 3's. -/
theorem c8_is_game_end (nr : NewRound) (crs : List ConcludedRound)
    (total : List Int) (last_round : ConcludedRound)
    (hT : replay_totals crs = some total) (hlen : total.length = 4)
    (hnn : ∀ s ∈ total, 0 ≤ s)
    (hret : ∃ s ∈ total, RETURNING_POINT ≤ s)
    (hwn : nr.round_wind ≠ Wind.NORTH) (hww : nr.round_wind ≠ Wind.WEST)
    (hlast : crs.getLast? = some last_round)
    (hlw : last_round.round_wind = Wind.SOUTH)
    (hln : last_round.round_number = 4) :
    (is_game_end nr crs = some true ↔
      (total.getD 0 0 < total.getD 3 0 ∧ total.getD 1 0 < total.getD 3 0 ∧
        total.getD 2 0 < total.getD 3 0)) := by
  have hneg : (total.any fun score => decide (score < 0)) = false := by
    cases h : total.any (fun score => decide (score < 0)) with
    | false => rfl
    | true =>
      rcases List.any_eq_true.mp h with ⟨s, hs, hdec⟩
      exact absurd (of_decide_eq_true hdec) (not_lt.mpr (hnn s hs))
  have hexc : (total.any fun score => decide (RETURNING_POINT ≤ score)) = true := by
    rcases hret with ⟨s, hs, hle⟩
    exact List.any_eq_true.mpr ⟨s, hs, decide_eq_true hle⟩
  simp only [is_game_end, hT, hneg, hexc, hlast, if_neg hwn, if_neg hww, hlw,
    hln, hlen, NUM_PLAYERS]
  simp [List.range_succ, List.all_cons]


-- A South-4 round whose deal-in pushes seat 0 to 31000: the match keeps
-- going because seat 0 is not strictly below seat 3.
def c8_last_round : ConcludedRound :=
  { round_wind := Wind.SOUTH
    round_number := 4
    honba := 0
    start_riichi_stick_count := 0
    end_riichi_stick_count := 0
    riichis := []
    tenpais := []
    transactions := [{ transaction_type := TransactionType.DEAL_IN
                       score_deltas := [6000, 0, -6000, 0]
                       hand := some ⟨30, 4⟩ }] }

def c8_new_round : NewRound :=
  { round_wind := Wind.SOUTH
    round_number := 1
    honba := 0
    start_riichi_stick_count := 0 }

/-- C8 witness: totals [31000, 25000, 19000, 25000] after South 4 with an
upcoming SOUTH round: seat 0 ties-or-beats seat 3, so the game goes on. -/
theorem c8_is_game_end_witness :
    replay_totals [c8_last_round] = some [31000, 25000, 19000, 25000] ∧
    (is_game_end c8_new_round [c8_last_round] = some true ↔
      ((31000 : Int) < 25000 ∧ (25000 : Int) < 25000 ∧
        (19000 : Int) < 25000)) :=
  ⟨by decide,
    by
      have h := c8_is_game_end c8_new_round [c8_last_round]
        [31000, 25000, 19000, 25000] c8_last_round (by decide) (by decide)
        (by decide) ⟨31000, by decide, by decide⟩ (by decide) (by decide)
        (by decide) (by decide) (by decide)
      simpa using h⟩


/-- C5 (amended): the deal-in, self-draw, nagashi-mangan and (for a
responsibility target distinct from the winner) self-draw-pao builders all
produce zero-sum `score_deltas`, and INROUND_RYUUKYOKU is all zeros; the
deal-in-pao builder instead sums to
`hand_value(m) - 2 * hand_value(m // 2)`, which is not always zero because
the two halved payments round independently (see the counterexample). -/
theorem c5_builder_sums (winner loser pao dealer : Nat) (hand : Hand)
    (hw : winner < 4) (hl : loser < 4) (hp : pao < 4) :
    (get_deal_in_transaction winner loser dealer hand).score_deltas.sum = 0 ∧
    (get_self_draw_transaction winner dealer hand).score_deltas.sum = 0 ∧
    (get_nagashi_mangan_transaction winner dealer).score_deltas.sum = 0 ∧
    (pao ≠ winner →
      (get_self_draw_pao_transaction winner pao dealer hand).score_deltas.sum
        = 0) ∧
    get_in_round_ryuukyoku_transaction.score_deltas = [0, 0, 0, 0] ∧
    (loser ≠ winner → pao ≠ winner → pao ≠ loser →
      (get_deal_in_pao_transaction winner loser pao dealer hand).score_deltas.sum
        = (calculate_hand_value (get_deal_in_multiplier winner dealer) hand : Int)
          - 2 * (calculate_hand_value
              (get_deal_in_multiplier winner dealer / 2) hand : Int)) := by
  refine ⟨?_, ?_, ?_, ?_, rfl, ?_⟩
  · interval_cases winner <;> interval_cases loser <;>
      simp [get_deal_in_transaction, get_empty_score_deltas] <;> omega
  · interval_cases winner <;>
      simp [get_self_draw_transaction, get_empty_score_deltas, NUM_PLAYERS,
        List.range_succ] <;> omega
  · interval_cases winner <;>
      simp [get_nagashi_mangan_transaction, get_empty_score_deltas, NUM_PLAYERS,
        List.range_succ] <;> omega
  · intro hpw
    interval_cases winner <;> interval_cases pao <;>
      first
      | exact absurd rfl hpw
      | (simp [get_self_draw_pao_transaction, get_empty_score_deltas] <;> omega)
  · intro h1 h2 h3
    interval_cases winner <;> interval_cases loser <;> interval_cases pao <;>
      first
      | exact absurd rfl h1
      | exact absurd rfl h2
      | exact absurd rfl h3
      | (simp [get_deal_in_pao_transaction, get_empty_score_deltas] <;> omega)

/-- C5 witness: the amended statement at winner = dealer = 0, loser = 1,
responsibility target 2, hand fu=55 han=0; the deal-in-pao deltas sum to
1300 - 2 * 600 = 100. -/
theorem c5_builder_sums_witness :
    (0 : Nat) < 4 ∧ (1 : Nat) < 4 ∧ (2 : Nat) < 4 ∧
    ((get_deal_in_transaction 0 1 0 ⟨55, 0⟩).score_deltas.sum = 0 ∧
    (get_self_draw_transaction 0 0 ⟨55, 0⟩).score_deltas.sum = 0 ∧
    (get_nagashi_mangan_transaction 0 0).score_deltas.sum = 0 ∧
    ((2 : Nat) ≠ 0 →
      (get_self_draw_pao_transaction 0 2 0 ⟨55, 0⟩).score_deltas.sum = 0) ∧
    get_in_round_ryuukyoku_transaction.score_deltas = [0, 0, 0, 0] ∧
    ((1 : Nat) ≠ 0 → (2 : Nat) ≠ 0 → (2 : Nat) ≠ 1 →
      (get_deal_in_pao_transaction 0 1 2 0 ⟨55, 0⟩).score_deltas.sum
        = (calculate_hand_value (get_deal_in_multiplier 0 0) ⟨55, 0⟩ : Int)
          - 2 * (calculate_hand_value
              (get_deal_in_multiplier 0 0 / 2) ⟨55, 0⟩ : Int))) :=
  ⟨by decide, by decide, by decide,
    c5_builder_sums 0 1 2 0 ⟨55, 0⟩ (by decide) (by decide) (by decide)⟩

/-- Sum of an if-then-else map: counted occurrences of the predicate. -/
lemma sum_map_ite (l : List Nat) (p : Nat → Prop) [DecidablePred p]
    (a b : Int) :
    (l.map (fun i => if p i then a else b)).sum =
      (l.countP fun i => decide (p i)) * a +
        ((l.length : Int) - (l.countP fun i => decide (p i))) * b := by
  induction l with
  | nil => simp
  | cons x xs ih =>
    by_cases h : p x <;>
      simp [h, ih, List.countP_cons, Nat.cast_add, Nat.cast_one] <;> push_cast <;> ring

/-- Scanning `range 4` for membership in a duplicate-free list of seats
counts exactly the list's length. -/
lemma countP_mem_range (ts : List Nat) (hnd : ts.Nodup)
    (hsub : ∀ x ∈ ts, x < 4) :
    ((List.range 4).countP fun i => decide (i ∈ ts)) = ts.length := by
  rw [List.countP_eq_length_filter]
  have hperm : ((List.range 4).filter (fun i => decide (i ∈ ts))).Perm ts := by
    rw [List.perm_ext_iff_of_nodup ((List.nodup_range 4).filter _) hnd]
    intro a
    simp only [List.mem_filter, List.mem_range, decide_eq_true_eq]
    exact ⟨fun h => h.2, fun h => ⟨hsub a h, h⟩⟩
  exact hperm.length_eq

/-- A duplicate-free list of seat indices has at most four elements. -/
lemma nodup_lt_four_length_le (ts : List Nat) (hnd : ts.Nodup)
    (hsub : ∀ x ∈ ts, x < 4) : ts.length ≤ 4 := by
  rw [← countP_mem_range ts hnd hsub, List.countP_eq_length_filter]
  exact le_trans (List.length_filter_le _ _) (by simp)

/-- C10: for a duplicate-free tenpai list over seats 0..3 the four deltas of
`generate_tenpai_score_deltas` sum to zero iff the tenpai count is 0, 2 or 4;
one tenpai seat sums to -6000 (the tenpai seat gains 3000, each other seat
loses 3000), three tenpai seats sum to +2000. -/
theorem c10_tenpai_sums (tenpais : List Nat) (hnd : tenpais.Nodup)
    (hsub : ∀ x ∈ tenpais, x < 4) :
    ((generate_tenpai_score_deltas tenpais).sum = 0 ↔
      tenpais.length = 0 ∨ tenpais.length = 2 ∨ tenpais.length = 4) ∧
    (tenpais.length = 1 →
      (generate_tenpai_score_deltas tenpais).sum = -6000 ∧
      ∀ i < 4,
        (i ∈ tenpais → (generate_tenpai_score_deltas tenpais).getD i 0 = 3000) ∧
        (i ∉ tenpais →
          (generate_tenpai_score_deltas tenpais).getD i 0 = -3000)) ∧
    (tenpais.length = 3 → (generate_tenpai_score_deltas tenpais).sum = 2000) := by
  have hsum : tenpais ≠ [] → tenpais.length ≠ 4 →
      (generate_tenpai_score_deltas tenpais).sum =
        (tenpais.length : Int) * Int.fdiv 3000 tenpais.length +
          ((4 : Int) - tenpais.length) * Int.fdiv (-3000) tenpais.length := by
    intro hne hn4
    unfold generate_tenpai_score_deltas
    rw [if_neg (not_or.mpr ⟨hne, by simpa [NUM_PLAYERS] using hn4⟩)]
    simp only [NUM_PLAYERS]
    rw [sum_map_ite (List.range 4) (fun i => i ∈ tenpais),
      countP_mem_range tenpais hnd hsub]
    simp
  have hlen4 := nodup_lt_four_length_le tenpais hnd hsub
  have hcases : tenpais.length = 0 ∨ tenpais.length = 1 ∨ tenpais.length = 2 ∨
      tenpais.length = 3 ∨ tenpais.length = 4 := by omega
  rcases hcases with h0 | h1 | h2 | h3 | h4
  · have he : tenpais = [] := List.length_eq_zero.mp h0
    subst he
    refine ⟨?_, ?_, ?_⟩
    · simp [generate_tenpai_score_deltas, get_empty_score_deltas]
    · intro h; simp at h
    · intro h; simp at h
  · have hne : tenpais ≠ [] := by
      intro he; rw [he] at h1; simp at h1
    have hs := hsum hne (by omega)
    rw [h1] at hs
    rw [show Int.fdiv 3000 ((1 : Nat) : Int) = 3000 from by decide,
      show Int.fdiv (-3000) ((1 : Nat) : Int) = -3000 from by decide] at hs
    norm_num at hs
    refine ⟨?_, fun _ => ⟨hs, ?_⟩, fun h => absurd h (by omega)⟩
    · constructor
      · intro hz; rw [hs] at hz; exact absurd hz (by decide)
      · intro hor; exact absurd hor (by omega)
    · intro i hi
      have hget :
          (generate_tenpai_score_deltas tenpais).getD i 0 =
            if i ∈ tenpais then Int.fdiv 3000 tenpais.length
            else Int.fdiv (-3000) tenpais.length := by
        unfold generate_tenpai_score_deltas
        rw [if_neg (not_or.mpr ⟨hne, by simp [NUM_PLAYERS, h1]⟩)]
        simp only [NUM_PLAYERS]
        rw [List.getD_eq_getElem?_getD, List.getElem?_map,
          List.getElem?_range hi]
        rfl
      constructor
      · intro hmem
        rw [hget, if_pos hmem, h1]
        decide
      · intro hmem
        rw [hget, if_neg hmem, h1]
        decide
  · have hne : tenpais ≠ [] := by
      intro he; rw [he] at h2; simp at h2
    have hs := hsum hne (by omega)
    rw [h2] at hs
    rw [show Int.fdiv 3000 ((2 : Nat) : Int) = 1500 from by decide,
      show Int.fdiv (-3000) ((2 : Nat) : Int) = -1500 from by decide] at hs
    norm_num at hs
    exact ⟨⟨fun _ => Or.inr (Or.inl h2), fun _ => hs⟩,
      fun h => absurd h (by omega), fun h => absurd h (by omega)⟩
  · have hne : tenpais ≠ [] := by
      intro he; rw [he] at h3; simp at h3
    have hs := hsum hne (by omega)
    rw [h3] at hs
    rw [show Int.fdiv 3000 ((3 : Nat) : Int) = 1000 from by decide,
      show Int.fdiv (-3000) ((3 : Nat) : Int) = -1000 from by decide] at hs
    norm_num at hs
    refine ⟨?_, fun h => absurd h (by omega), fun _ => hs⟩
    constructor
    · intro hz; rw [hs] at hz; exact absurd hz (by decide)
    · intro hor; exact absurd hor (by omega)
  · have hz : (generate_tenpai_score_deltas tenpais).sum = 0 := by
      unfold generate_tenpai_score_deltas
      rw [if_pos (Or.inr (by simpa [NUM_PLAYERS] using h4))]
      decide
    exact ⟨⟨fun _ => Or.inr (Or.inr h4), fun _ => hz⟩,
      fun h => absurd h (by omega), fun h => absurd h (by omega)⟩

/-- C10 witness: the lone tenpai seat 2 gains 3000 while seats 0, 1, 3 each
lose 3000, for a net -6000. -/
theorem c10_tenpai_sums_witness :
    ([2] : List Nat).Nodup ∧ (∀ x ∈ ([2] : List Nat), x < 4) ∧
    (((generate_tenpai_score_deltas [2]).sum = 0 ↔
      ([2] : List Nat).length = 0 ∨ ([2] : List Nat).length = 2 ∨
        ([2] : List Nat).length = 4) ∧
    (([2] : List Nat).length = 1 →
      (generate_tenpai_score_deltas [2]).sum = -6000 ∧
      ∀ i < 4,
        (i ∈ ([2] : List Nat) →
          (generate_tenpai_score_deltas [2]).getD i 0 = 3000) ∧
        (i ∉ ([2] : List Nat) →
          (generate_tenpai_score_deltas [2]).getD i 0 = -3000)) ∧
    (([2] : List Nat).length = 3 →
      (generate_tenpai_score_deltas [2]).sum = 2000)) :=
  ⟨by decide, by decide,
    c10_tenpai_sums [2] (by decide) (by decide)⟩

end Riichi
